import Mathlib

/-
Verification of the odds-extraction and bronze-load pipeline.

Shallow embedding of the two source modules the claims are about:
  * scripts/api_extraction/odds_extractor.py  (class OddsAPIExtractor)
  * scripts/databricks_upload.py              (class DatabricksLoader)

Network, file-system and database effects are modelled as explicit oracle
parameters (a fetch function, a write function, a file-system map, a
per-row insert-success predicate), so every definition below is an
executable pure function mirroring the corresponding Python control flow.
-/

namespace OddsProject

/-- One priced option inside a market as the provider returns it:
an outcome name, a decimal price, and an optional line (`point`).
`point` is `none` exactly when the JSON object has no `point` field,
matching Python `outcome.get('point', None)`. -/
structure Outcome where
  name : String
  price : Rat
  point : Option Rat
  deriving DecidableEq

/-- One market (`h2h`, `spreads`, `totals`, ...) of one bookmaker,
with its list of outcomes (`market.get('outcomes', [])`). -/
structure Market where
  key : String
  outcomes : List Outcome
  deriving DecidableEq

/-- One bookmaker entry of one game, with its markets
(`bookmaker.get('markets', [])`). -/
structure Bookmaker where
  key : String
  markets : List Market
  deriving DecidableEq

/-- One game object of the raw API payload.  `sport_key` models
`game.get('sport_key', '')`: a missing field is the empty string. -/
structure Game where
  id : String
  sport_key : String
  sport_title : String
  home_team : String
  away_team : String
  commence_time : String
  bookmakers : List Bookmaker
  deriving DecidableEq

/-- One flattened row of the output dataset, with the exact fields the
record dict built in `transform_to_dataframe` has. -/
structure OddsRecord where
  game_id : String
  sport_key : String
  sport_title : String
  home_team : String
  away_team : String
  commence_time : String
  bookmaker : String
  market_type : String
  outcome_name : String
  odds : Rat
  point : Option Rat
  extracted_at : String
  deriving DecidableEq

/-- The record dict literal of `transform_to_dataframe` (odds_extractor.py
lines 241-254).  `sport_key or game.get('sport_key', '')` is Python
truthiness on strings: the passed key unless it is empty.  `now` stands for
`datetime.now(timezone.utc).isoformat()` at flatten time. -/
def mkRecord (game : Game) (bookmaker : Bookmaker) (market : Market) (outcome : Outcome)
    (sport_key : String) (now : String) : OddsRecord :=
  { game_id := game.id
    sport_key := if sport_key == "" then game.sport_key else sport_key
    sport_title := game.sport_title
    home_team := game.home_team
    away_team := game.away_team
    commence_time := game.commence_time
    bookmaker := bookmaker.key
    market_type := market.key
    outcome_name := outcome.name
    odds := outcome.price
    point := outcome.point
    extracted_at := now }

/-- `OddsAPIExtractor.transform_to_dataframe` (odds_extractor.py lines
209-263): walk games, keep only bookmakers whose key is exactly `betway`
(`if bookmaker['key'] != 'betway': continue`), walk markets and outcomes,
and emit one record per outcome.  The resulting DataFrame is modelled by
the list of its rows; the empty DataFrame returned when `records` is empty
is the empty list. -/
def transform_to_dataframe (raw_data : List Game) (sport_key : String) (now : String) :
    List OddsRecord :=
  raw_data.flatMap fun game =>
    (game.bookmakers.filter fun bookmaker => bookmaker.key == "betway").flatMap fun bookmaker =>
      bookmaker.markets.flatMap fun market =>
        market.outcomes.map fun outcome =>
          mkRecord game bookmaker market outcome sport_key now

/-- Independent count of the (betway bookmaker, market, outcome) triples of
a raw payload, written directly from the nesting of the payload. -/
def betwayOutcomeCount (raw : List Game) : Nat :=
  (raw.map fun game =>
    ((game.bookmakers.filter fun bookmaker => bookmaker.key == "betway").map fun bookmaker =>
      (bookmaker.markets.map fun market => market.outcomes.length).sum).sum).sum

lemma length_transform (raw : List Game) (k now : String) :
    (transform_to_dataframe raw k now).length = betwayOutcomeCount raw := by
  simp [transform_to_dataframe, betwayOutcomeCount, List.length_flatMap,
    Function.comp_def]

lemma mem_transform {raw : List Game} {k now : String} {r : OddsRecord} :
    r ∈ transform_to_dataframe raw k now ↔
      ∃ g ∈ raw, ∃ b ∈ g.bookmakers, b.key = "betway" ∧
        ∃ m ∈ b.markets, ∃ o ∈ m.outcomes, r = mkRecord g b m o k now := by
  simp only [transform_to_dataframe, List.mem_flatMap, List.mem_filter,
    List.mem_map, beq_iff_eq]
  constructor
  · rintro ⟨g, hg, b, ⟨hb, hbk⟩, m, hm, o, ho, hr⟩
    exact ⟨g, hg, b, hb, hbk, m, hm, o, ho, hr.symm⟩
  · rintro ⟨g, hg, b, hb, hbk, m, hm, o, ho, hr⟩
    exact ⟨g, hg, b, ⟨hb, hbk⟩, m, hm, o, ho, hr.symm⟩

/-- The `SOCCER_LEAGUES` class constant (odds_extractor.py lines 31-36):
supported sport keys with their human-readable names. -/
def SOCCER_LEAGUES : List (String × String) :=
  [("soccer_epl", "English Premier League (EPL)"),
   ("soccer_la_liga", "Spanish La Liga"),
   ("soccer_serie_a", "Italian Serie A"),
   ("soccer_uefa_champs_league", "UEFA Champions League")]

/-- `list(self.SOCCER_LEAGUES.keys())`. -/
def supportedLeagueKeys : List String := SOCCER_LEAGUES.map Prod.fst

/-- Lines 92-96 of odds_extractor.py: default `leagues` to every supported
key when `None`, then keep only the requested keys that are supported
(`[l for l in leagues if l in self.SOCCER_LEAGUES]`). -/
def filteredLeagues (leagues : Option (List String)) : List String :=
  (match leagues with
    | none => supportedLeagueKeys
    | some ls => ls).filter fun l => supportedLeagueKeys.contains l

/-- One entry of `self.extraction_summary` (odds_extractor.py lines
127-133). -/
structure SummaryEntry where
  league : String
  league_key : String
  «matches» : Nat
  records : Nat
  extracted_at : String
  deriving DecidableEq

/-- The dict appended to `extraction_summary` for a league whose
transformed frame is non-empty: `self.SOCCER_LEAGUES[league_key]`,
the key, `len(raw_data)`, `len(df)`, and the extraction instant. -/
def mkSummaryEntry (league_key : String) (raw : List Game) (df : List OddsRecord)
    (now : String) : SummaryEntry :=
  { league := (SOCCER_LEAGUES.lookup league_key).getD ""
    league_key := league_key
    «matches» := raw.length
    records := df.length
    extracted_at := now }

/-- The body of the `for league_key in leagues` loop of
`extract_odds_for_leagues` (odds_extractor.py lines 110-135), acting on the
accumulated `(all_data, extraction_summary)` pair.  `fetch` is the
`extract_odds` call: `none` models any fetch failure (HTTP 401/429/other,
network error), which `extract_odds` turns into a `None` return.
`if raw_data:` is Python truthiness (skips both `None` and `[]`), and the
frame plus summary entry are appended only `if not df.empty`. -/
def extractStep (fetch : String → Option (List Game)) (now : String)
    (acc : List OddsRecord × List SummaryEntry) (league_key : String) :
    List OddsRecord × List SummaryEntry :=
  match fetch league_key with
  | none => acc
  | some raw =>
    if raw.isEmpty then acc
    else
      let df := transform_to_dataframe raw league_key now
      if df.isEmpty then acc
      else (acc.1 ++ df, acc.2 ++ [mkSummaryEntry league_key raw df now])

/-- `OddsAPIExtractor.extract_odds_for_leagues` (odds_extractor.py lines
75-149) on a freshly constructed extractor (`extraction_summary = []`,
line 49).  Returns the combined dataset (`pd.concat(all_data)`, or the
empty frame when `all_data` stayed empty — including the early return when
no requested league is valid, lines 98-102) together with the final value
of `self.extraction_summary`. -/
def extract_odds_for_leagues (fetch : String → Option (List Game))
    (leagues : Option (List String)) (now : String) :
    List OddsRecord × List SummaryEntry :=
  let ls := filteredLeagues leagues
  if ls.isEmpty then ([], [])
  else ls.foldl (extractStep fetch now) ([], [])

/-- The records one league contributes: nothing on a fetch failure,
otherwise the flattened frame. -/
def leagueRecords (fetch : String → Option (List Game)) (league_key : String)
    (now : String) : List OddsRecord :=
  match fetch league_key with
  | none => []
  | some raw => transform_to_dataframe raw league_key now

/-- The summary entry one league contributes, if any: only a league whose
fetch succeeded with a non-empty payload and whose flattened frame is
non-empty gets an entry. -/
def summaryOpt (fetch : String → Option (List Game)) (now : String)
    (league_key : String) : Option SummaryEntry :=
  match fetch league_key with
  | none => none
  | some raw =>
    if raw.isEmpty then none
    else
      let df := transform_to_dataframe raw league_key now
      if df.isEmpty then none
      else some (mkSummaryEntry league_key raw df now)

/-- The CSV path built by `save_to_csv` (odds_extractor.py line 282). -/
def csvPath (filename timestamp : String) : String :=
  "data/raw/" ++ filename ++ "_" ++ timestamp ++ ".csv"

/-- `OddsAPIExtractor.save_to_csv` (odds_extractor.py lines 265-290).
`write` models `df.to_csv`: `false` means the call raised an I/O error,
which the `except` clause turns into a `None` return after logging.  An
empty frame returns `None` before any write. -/
def save_to_csv (write : String → List OddsRecord → Bool)
    (df : List OddsRecord) (filename : String) (timestamp : String) : Option String :=
  if df.isEmpty then none
  else
    let filepath := csvPath filename timestamp
    if write filepath df then some filepath else none

/-- A CSV data row read back by `pd.read_csv`, as its list of cells. -/
abbrev CsvRow := List String

/-- The exceptions the `try` body of `load_csv_to_bronze` can raise. -/
inductive LoadErr where
  | fileNotFound
  | insertError
  deriving DecidableEq

/-- The external world of `DatabricksLoader.load_csv_to_bronze`:
`fs` models `pd.read_csv` (`none` = the path is missing, raising
`FileNotFoundError`; `some rows` = the data rows of the file), and
`insertOk i` models whether the `cursor.execute` insert of row `i`
succeeds or raises. -/
structure LoadEnv where
  fs : String → Option (List CsvRow)
  insertOk : Nat → Bool

/-- The row-by-row insert loop (databricks_upload.py lines 140-147):
rows are inserted sequentially starting at index `i`; the first failing
`cursor.execute` raises.  The grouping into batches of 100 only affects
logging, not which inserts run or the raised exception. -/
def insertRows (insertOk : Nat → Bool) : Nat → Nat → Except LoadErr Unit
  | _, 0 => Except.ok ()
  | i, n + 1 =>
    if insertOk i then insertRows insertOk (i + 1) n
    else Except.error LoadErr.insertError

/-- The `try` body of `load_csv_to_bronze` (databricks_upload.py lines
106-150): read the CSV (raising `FileNotFoundError` when missing), return
0 on an empty frame, otherwise insert every row and return `row_count`. -/
def load_csv_inner (env : LoadEnv) (csv_filepath : String) : Except LoadErr Nat :=
  match env.fs csv_filepath with
  | none => Except.error LoadErr.fileNotFound
  | some rows =>
    if rows.isEmpty then Except.ok 0
    else
      match insertRows env.insertOk 0 rows.length with
      | Except.ok _ => Except.ok rows.length
      | Except.error e => Except.error e

/-- `DatabricksLoader.load_csv_to_bronze` (databricks_upload.py lines
95-157): the `except FileNotFoundError` and `except Exception` handlers
log the error and return 0, so the caller always receives a plain row
count. -/
def load_csv_to_bronze (env : LoadEnv) (csv_filepath : String) : Nat :=
  match load_csv_inner env csv_filepath with
  | Except.ok n => n
  | Except.error _ => 0

/-- The analytical store as the Load Client sees it: `none` when the
bronze table does not exist yet, `some rows` when it exists with the
given rows. -/
structure DbState where
  table : Option (List CsvRow)
  deriving DecidableEq

/-- The effect of the `CREATE TABLE IF NOT EXISTS` DDL on the store:
an existing table (and its data) is left untouched, an absent table is
created empty. -/
def applyCreateIfNotExists (s : DbState) : DbState :=
  match s.table with
  | some _ => s
  | none => { table := some [] }

/-- `DatabricksLoader.create_bronze_table` (databricks_upload.py lines
59-93).  `ddlOk` models whether `cursor.execute(create_table_sql)`
raises: on success the DDL semantics apply and `True` is returned; on any
exception the handler logs a warning and still returns `True` (line 93,
"Table might already exist"), leaving the store unchanged. -/
def create_bronze_table (ddlOk : Bool) (s : DbState) : DbState × Bool :=
  if ddlOk then (applyCreateIfNotExists s, true)
  else (s, true)

/-- Sample h2h outcome without a line. -/
def oHome : Outcome := ⟨"Arsenal", 2, none⟩

/-- Sample h2h outcome without a line. -/
def oAway : Outcome := ⟨"Chelsea", (7 : Rat) / 2, none⟩

/-- Sample totals outcome carrying a 2.5 line. -/
def oTotals : Outcome := ⟨"Over", (19 : Rat) / 10, some ((5 : Rat) / 2)⟩

/-- Sample h2h market with two outcomes. -/
def mH2h : Market := ⟨"h2h", [oHome, oAway]⟩

/-- Sample totals market with one outcome. -/
def mTotals : Market := ⟨"totals", [oTotals]⟩

/-- Sample betway bookmaker entry. -/
def bBetway : Bookmaker := ⟨"betway", [mH2h, mTotals]⟩

/-- Sample non-betway bookmaker entry. -/
def bOther : Bookmaker := ⟨"unibet", [mH2h]⟩

/-- Sample game carrying both a betway and a non-betway bookmaker. -/
def gExample : Game :=
  ⟨"g1", "soccer_epl", "EPL", "Arsenal", "Chelsea", "2026-10-12T14:00:00Z",
   [bBetway, bOther]⟩

/-- Sample game with no betway bookmaker at all. -/
def gOther : Game :=
  ⟨"g2", "soccer_epl", "EPL", "Spurs", "Leeds", "2026-10-12T16:00:00Z", [bOther]⟩

/-- Sample game whose betway h2h outcome carries a provider-supplied
`point` of 2.5 even though h2h is not a line market. -/
def gPointed : Game :=
  ⟨"g3", "", "EPL", "Arsenal", "Chelsea", "2026-10-12T14:00:00Z",
   [⟨"betway", [⟨"h2h", [⟨"Arsenal", 2, some ((5 : Rat) / 2)⟩]⟩]⟩]⟩

/-- Sample fetch oracle: the EPL request succeeds with one game, every
other league's request fails. -/
def fetchB : String → Option (List Game) := fun l =>
  if l == "soccer_epl" then some [gExample] else none

/-- The record flattened from `gExample`'s betway h2h home outcome. -/
def rH2h : OddsRecord := mkRecord gExample bBetway mH2h oHome "soccer_epl" "t0"

/-- The record flattened from `gExample`'s betway totals outcome. -/
def rTotals : OddsRecord := mkRecord gExample bBetway mTotals oTotals "soccer_epl" "t0"

/-- A write oracle that always raises an I/O error. -/
def failingWrite : String → List OddsRecord → Bool := fun _ _ => false

/-- Load environment whose file system holds a two-data-row CSV at
`a.csv` and whose inserts all succeed. -/
def envGood : LoadEnv :=
  ⟨fun p => if p == "a.csv" then some [["r1"], ["r2"]] else none, fun _ => true⟩

/-- Load environment whose file system holds a header-only CSV at
`e.csv`. -/
def envHeaderOnly : LoadEnv :=
  ⟨fun p => if p == "e.csv" then some [] else none, fun _ => true⟩

/-- Load environment with no file at any path. -/
def envMissing : LoadEnv := ⟨fun _ => none, fun _ => true⟩

/-- Load environment whose file exists but whose every insert raises. -/
def envInsertFail : LoadEnv := ⟨fun _ => some [["r1"]], fun _ => false⟩

/-- A store state in which the bronze table exists and holds one row. -/
def sData : DbState := ⟨some [["r"]]⟩

lemma extractStep_eq (fetch : String → Option (List Game)) (now : String)
    (acc : List OddsRecord × List SummaryEntry) (l : String) :
    extractStep fetch now acc l =
      (acc.1 ++ leagueRecords fetch l now,
       acc.2 ++ (summaryOpt fetch now l).toList) := by
  unfold extractStep leagueRecords summaryOpt
  cases hf : fetch l with
  | none => simp
  | some raw =>
    by_cases hraw : raw.isEmpty
    · rw [List.isEmpty_iff] at hraw
      subst hraw
      simp [transform_to_dataframe]
    · simp only [hraw, if_neg, Bool.false_eq_true, not_false_iff, if_false]
      by_cases hdf : (transform_to_dataframe raw l now).isEmpty
      · rw [List.isEmpty_iff] at hdf
        simp [hdf, hraw]
      · simp [hdf, hraw]

lemma foldl_extractStep (fetch : String → Option (List Game)) (now : String) :
    ∀ (ls : List String) (acc : List OddsRecord × List SummaryEntry),
      ls.foldl (extractStep fetch now) acc =
        (acc.1 ++ ls.flatMap (fun l => leagueRecords fetch l now),
         acc.2 ++ ls.flatMap (fun l => (summaryOpt fetch now l).toList))
  | [], acc => by simp
  | l :: t, acc => by
    rw [List.foldl_cons, foldl_extractStep fetch now t, extractStep_eq]
    simp

/-- The whole aggregator, decomposed league by league: the combined
dataset is the concatenation of each valid league's records, and the
summary collects each valid league's optional entry, in request order. -/
lemma extract_eq (fetch : String → Option (List Game))
    (leagues : Option (List String)) (now : String) :
    extract_odds_for_leagues fetch leagues now =
      ((filteredLeagues leagues).flatMap (fun l => leagueRecords fetch l now),
       (filteredLeagues leagues).flatMap (fun l => (summaryOpt fetch now l).toList)) := by
  unfold extract_odds_for_leagues
  by_cases h : (filteredLeagues leagues).isEmpty
  · rw [List.isEmpty_iff] at h
    simp [h]
  · simp only [h, Bool.false_eq_true, if_false]
    rw [foldl_extractStep]
    simp

lemma summaryOpt_none_iff (fetch : String → Option (List Game)) (now l : String) :
    summaryOpt fetch now l = none ↔ leagueRecords fetch l now = [] := by
  unfold summaryOpt leagueRecords
  cases hf : fetch l with
  | none => simp
  | some raw =>
    dsimp only
    by_cases hraw : raw.isEmpty = true
    · rw [List.isEmpty_iff] at hraw
      subst hraw
      simp [transform_to_dataframe]
    · rw [if_neg hraw]
      by_cases hdf : (transform_to_dataframe raw l now).isEmpty = true
      · rw [if_pos hdf]
        rw [List.isEmpty_iff] at hdf
        simp [hdf]
      · rw [if_neg hdf]
        rw [List.isEmpty_iff] at hdf
        simp [hdf]

lemma summaryOpt_some (fetch : String → Option (List Game)) (now l : String)
    (e : SummaryEntry) (h : summaryOpt fetch now l = some e) :
    e.league_key = l ∧ e.records = (leagueRecords fetch l now).length := by
  cases hf : fetch l with
  | none => simp [summaryOpt, hf] at h
  | some raw =>
    simp only [summaryOpt, hf] at h
    by_cases hraw : raw.isEmpty = true
    · rw [if_pos hraw] at h
      exact absurd h (by simp)
    · rw [if_neg hraw] at h
      by_cases hdf : (transform_to_dataframe raw l now).isEmpty = true
      · rw [if_pos hdf] at h
        exact absurd h (by simp)
      · rw [if_neg hdf] at h
        cases h
        simp [leagueRecords, hf, mkSummaryEntry]

lemma sum_summary_records (fetch : String → Option (List Game)) (now : String) :
    ∀ ls : List String,
      ((ls.flatMap (fun l => (summaryOpt fetch now l).toList)).map
        (fun e => e.records)).sum =
      (ls.flatMap (fun l => leagueRecords fetch l now)).length
  | [] => by simp
  | l :: t => by
    simp only [List.flatMap_cons, List.map_append, List.sum_append,
      List.length_append, sum_summary_records fetch now t]
    cases hs : summaryOpt fetch now l with
    | none =>
      rw [summaryOpt_none_iff] at hs
      simp [hs]
    | some e =>
      obtain ⟨-, hrec⟩ := summaryOpt_some fetch now l e hs
      simp [hrec]

lemma summary_keys (fetch : String → Option (List Game)) (now : String) :
    ∀ ls : List String,
      (ls.flatMap (fun l => (summaryOpt fetch now l).toList)).map
        (fun e => e.league_key) =
      ls.filter (fun l => !(leagueRecords fetch l now).isEmpty)
  | [] => by simp
  | l :: t => by
    simp only [List.flatMap_cons, List.map_append, List.filter_cons,
      summary_keys fetch now t]
    cases hs : summaryOpt fetch now l with
    | none =>
      rw [summaryOpt_none_iff] at hs
      simp [hs]
    | some e =>
      obtain ⟨hkey, -⟩ := summaryOpt_some fetch now l e hs
      have hne : leagueRecords fetch l now ≠ [] := by
        intro hnil
        rw [← summaryOpt_none_iff fetch now l] at hnil
        rw [hs] at hnil
        exact Option.noConfusion hnil
      simp [hkey, List.isEmpty_iff, hne]

lemma insertRows_all_ok {insertOk : Nat → Bool} (h : ∀ i, insertOk i = true) :
    ∀ (i n : Nat), insertRows insertOk i n = Except.ok ()
  | _, 0 => rfl
  | i, n + 1 => by
    unfold insertRows
    rw [h i, if_pos rfl]
    exact insertRows_all_ok h (i + 1) n

lemma extract_congr (fetch : String → Option (List Game)) (now : String)
    {a b : Option (List String)} (h : filteredLeagues a = filteredLeagues b) :
    extract_odds_for_leagues fetch a now = extract_odds_for_leagues fetch b now := by
  unfold extract_odds_for_leagues
  rw [h]

/-- C1: for every raw games payload, the flattener emits exactly one
record per (bookmaker, market, outcome) triple whose bookmaker key is
exactly `betway` (the output length equals the count of such triples) and
every emitted record carries bookmaker `betway`; the empty game list
yields the empty output, and a payload with no `betway` bookmaker yields
the empty output rather than a failure. -/
theorem flatten_one_record_per_betway_outcome (raw : List Game) (k now : String) :
    (transform_to_dataframe raw k now).length = betwayOutcomeCount raw ∧
    (∀ r ∈ transform_to_dataframe raw k now, r.bookmaker = "betway") ∧
    transform_to_dataframe [] k now = [] ∧
    ((∀ g ∈ raw, ∀ b ∈ g.bookmakers, b.key ≠ "betway") →
      transform_to_dataframe raw k now = []) := by
  refine ⟨length_transform raw k now, ?_, rfl, ?_⟩
  · intro r hr
    obtain ⟨g, -, b, -, hbk, m, -, o, -, hrec⟩ := mem_transform.mp hr
    subst hrec
    simpa [mkRecord] using hbk
  · intro h
    by_contra hne
    obtain ⟨r, hr⟩ := List.exists_mem_of_ne_nil _ hne
    obtain ⟨g, hg, b, hb, hbk, -⟩ := mem_transform.mp hr
    exact h g hg b hb hbk

theorem flatten_one_record_per_betway_outcome_witness :
    transform_to_dataframe [gOther] "soccer_epl" "t0" = [] :=
  (flatten_one_record_per_betway_outcome [gOther] "soccer_epl" "t0").2.2.2 (by decide)

/-- C5: for every requested league list, the aggregator behaves exactly
as on the list with every unsupported key filtered out (unknown keys are
dropped before fetching, never causing a failure); an unspecified list
defaults to the full supported set; and requesting
`soccer_epl, bogus_key` is the same as requesting `soccer_epl` alone. -/
theorem extract_filters_unknown_leagues (fetch : String → Option (List Game))
    (now : String) (ls : List String) :
    extract_odds_for_leagues fetch (some ls) now =
      extract_odds_for_leagues fetch
        (some (ls.filter fun l => supportedLeagueKeys.contains l)) now ∧
    extract_odds_for_leagues fetch none now =
      extract_odds_for_leagues fetch (some supportedLeagueKeys) now ∧
    extract_odds_for_leagues fetch (some ["soccer_epl", "bogus_key"]) now =
      extract_odds_for_leagues fetch (some ["soccer_epl"]) now := by
  refine ⟨extract_congr fetch now ?_, extract_congr fetch now ?_,
    extract_congr fetch now (by decide)⟩
  · unfold filteredLeagues
    rw [List.filter_filter]
    simp
  · rfl

/-- C6: the combined dataset is the concatenation, over every requested
valid league, of that league's records, where a league whose fetch fails
contributes the empty list — so one league's fetch failure (HTTP 429,
401, network error, all modelled as a `none` fetch result) yields zero
records for that league and leaves every other league's records in
place, and the aggregator always returns a (possibly empty) dataset. -/
theorem per_league_failure_isolated (fetch : String → Option (List Game))
    (leagues : Option (List String)) (now : String) :
    (extract_odds_for_leagues fetch leagues now).1 =
      (filteredLeagues leagues).flatMap (fun l => leagueRecords fetch l now) ∧
    (∀ l, fetch l = none → leagueRecords fetch l now = []) := by
  constructor
  · rw [extract_eq]
  · intro l h
    unfold leagueRecords
    rw [h]

theorem per_league_failure_isolated_witness :
    leagueRecords fetchB "soccer_la_liga" "t0" = [] :=
  (per_league_failure_isolated fetchB (some ["soccer_epl", "soccer_la_liga"]) "t0").2
    "soccer_la_liga" (by decide)

/-- C7: for every supported league key, every record that league's
extraction produces has `sport_key` equal to the requested key — never
the provider-supplied per-game `sport_key` and never empty. -/
theorem extracted_sport_key_eq_requested (l : String) (h : l ∈ supportedLeagueKeys)
    (fetch : String → Option (List Game)) (now : String) :
    ∀ r ∈ leagueRecords fetch l now, r.sport_key = l ∧ r.sport_key ≠ "" := by
  have hne : l ≠ "" := by
    intro h0
    subst h0
    exact absurd h (by decide)
  have hbeq : (l == "") = false := by
    simpa using hne
  intro r hr
  unfold leagueRecords at hr
  cases hf : fetch l with
  | none => rw [hf] at hr; simp at hr
  | some raw =>
    rw [hf] at hr
    obtain ⟨g, -, b, -, -, m, -, o, -, hrec⟩ := mem_transform.mp hr
    subst hrec
    constructor
    · simp [mkRecord, hbeq]
    · simp [mkRecord, hbeq, hne]

theorem extracted_sport_key_eq_requested_witness :
    rH2h.sport_key = "soccer_epl" ∧ rH2h.sport_key ≠ "" :=
  extracted_sport_key_eq_requested "soccer_epl" (by decide) fetchB "t0" rH2h (by decide)

/-- C2: for a readable CSV with N data rows and inserts that all succeed,
`load_csv_to_bronze` returns exactly N (the count of rows submitted for
insertion), and for a header-only file (no data rows) the body completes
normally with 0 — no exception. -/
theorem load_returns_submitted_row_count (env : LoadEnv) (p : String)
    (rows : List CsvRow) (h1 : env.fs p = some rows)
    (h2 : ∀ i, env.insertOk i = true) :
    load_csv_to_bronze env p = rows.length ∧
    (rows = [] → load_csv_inner env p = Except.ok 0) := by
  unfold load_csv_to_bronze load_csv_inner
  rw [h1]
  dsimp only
  by_cases he : rows.isEmpty = true
  · rw [if_pos he]
    rw [List.isEmpty_iff] at he
    simp [he]
  · rw [if_neg he, insertRows_all_ok h2]
    rw [List.isEmpty_iff] at he
    simp [he]

theorem load_returns_submitted_row_count_witness :
    load_csv_to_bronze envGood "a.csv" = 2 ∧
    load_csv_inner envHeaderOnly "e.csv" = Except.ok 0 :=
  ⟨(load_returns_submitted_row_count envGood "a.csv" [["r1"], ["r2"]]
      (by decide) (fun _ => rfl)).1,
   (load_returns_submitted_row_count envHeaderOnly "e.csv" []
      (by decide) (fun _ => rfl)).2 rfl⟩

/-- C3 counterexample: with the CSV path missing, the body of
`load_csv_to_bronze` raises `FileNotFoundError`, yet the call returns
normally with the count 0 — the error is not surfaced to the caller as a
step failure, contrary to the claim. -/
theorem load_missing_file_returns_zero_counterexample :
    load_csv_inner envMissing "data/raw/odds_extracted.csv" =
      Except.error LoadErr.fileNotFound ∧
    load_csv_to_bronze envMissing "data/raw/odds_extracted.csv" = 0 :=
  ⟨rfl, rfl⟩

/-- C3 amended: whenever the body of `load_csv_to_bronze` raises (missing
file, connection or insert error), the handlers catch the exception, log
it, and the call returns 0 normally — indistinguishable from an empty
file; no failure reaches the caller. -/
theorem load_errors_swallowed_to_zero (env : LoadEnv) (p : String) (e : LoadErr)
    (h : load_csv_inner env p = Except.error e) :
    load_csv_to_bronze env p = 0 := by
  unfold load_csv_to_bronze
  rw [h]

theorem load_errors_swallowed_to_zero_witness :
    load_csv_to_bronze envInsertFail "b.csv" = 0 :=
  load_errors_swallowed_to_zero envInsertFail "b.csv" LoadErr.insertError rfl

/-- C4 counterexample: an I/O failure while writing a non-empty dataset
makes `save_to_csv` return `None` — the very value the empty-dataset
no-op returns — so the write failure is not distinguishable from the
empty-dataset no-op by the caller, contrary to the claim. -/
theorem save_failure_indistinguishable_counterexample :
    save_to_csv failingWrite [rH2h] "odds_data" "20261012_140000" = none ∧
    save_to_csv failingWrite [] "odds_data" "20261012_140000" = none :=
  ⟨rfl, rfl⟩

/-- C4 amended: `save_to_csv` returns `None` exactly when the dataset is
empty or the single write attempt fails (the write is attempted at most
once — no internal retry), so an I/O failure yields `None`, the same
value as the empty-dataset no-op. -/
theorem save_to_csv_none_iff (write : String → List OddsRecord → Bool)
    (df : List OddsRecord) (fn ts : String) :
    save_to_csv write df fn ts = none ↔
      df = [] ∨ write (csvPath fn ts) df = false := by
  unfold save_to_csv
  by_cases he : df.isEmpty = true
  · rw [if_pos he]
    rw [List.isEmpty_iff] at he
    simp [he]
  · rw [if_neg he]
    rw [List.isEmpty_iff] at he
    by_cases hw : write (csvPath fn ts) df = true
    · simp [hw, he]
    · simp only [Bool.not_eq_true] at hw
      simp [hw, he]

theorem save_to_csv_none_iff_witness :
    save_to_csv failingWrite [rH2h] "odds_data" "t1" = none :=
  (save_to_csv_none_iff failingWrite [rH2h] "odds_data" "t1").mpr (Or.inr rfl)

/-- C8 counterexample: the flattener copies `point` verbatim from the
provider outcome, so a payload whose betway h2h outcome carries a point
of 2.5 produces a record with `market_type = h2h` and a non-null
`point` — refuting the claimed iff between a non-null point and a line
market. -/
theorem point_copied_verbatim_counterexample :
    ¬ (∀ r ∈ transform_to_dataframe [gPointed] "soccer_epl" "t0",
        (r.point ≠ none ↔ (r.market_type = "spreads" ∨ r.market_type = "totals"))) := by
  decide

/-- C8 amended: the flattener copies each outcome's `point` unchanged, so
whenever the raw payload itself supplies a point exactly on spreads and
totals outcomes, every emitted record has a non-null `point` iff its
`market_type` is spreads or totals (and h2h records have a null point). -/
theorem point_iff_line_market_amended (raw : List Game) (k now : String)
    (h : ∀ g ∈ raw, ∀ b ∈ g.bookmakers, ∀ m ∈ b.markets, ∀ o ∈ m.outcomes,
      (o.point ≠ none ↔ (m.key = "spreads" ∨ m.key = "totals"))) :
    ∀ r ∈ transform_to_dataframe raw k now,
      (r.point ≠ none ↔ (r.market_type = "spreads" ∨ r.market_type = "totals")) := by
  intro r hr
  obtain ⟨g, hg, b, hb, -, m, hm, o, ho, hrec⟩ := mem_transform.mp hr
  subst hrec
  simpa [mkRecord] using h g hg b hb m hm o ho

theorem point_iff_line_market_amended_witness :
    (rTotals.point ≠ none ↔
      (rTotals.market_type = "spreads" ∨ rTotals.market_type = "totals")) :=
  point_iff_line_market_amended [gExample] "soccer_epl" "t0" (by decide) rTotals
    (mem_transform.mpr
      ⟨gExample, List.mem_singleton.mpr rfl, bBetway, by simp [gExample], rfl,
       mTotals, by simp [bBetway], oTotals, by simp [mTotals], rfl⟩)

/-- C9: `create_bronze_table` is idempotent and never raises: whatever
the DDL outcome of each of two successive calls, each call reports
success (`True`), and an existing table's rows are never altered — a
failing DDL is swallowed and the call still reports success. -/
theorem create_bronze_table_idempotent (d1 d2 : Bool) (s : DbState) :
    (create_bronze_table d1 s).2 = true ∧
    (create_bronze_table d2 (create_bronze_table d1 s).1).2 = true ∧
    (∀ rows, s.table = some rows →
      (create_bronze_table d1 s).1.table = some rows ∧
      (create_bronze_table d2 (create_bronze_table d1 s).1).1.table = some rows) := by
  obtain ⟨t⟩ := s
  cases d1 <;> cases d2 <;> cases t <;>
    simp [create_bronze_table, applyCreateIfNotExists]

theorem create_bronze_table_idempotent_witness :
    (create_bronze_table true (create_bronze_table false sData).1).1.table =
      some [["r"]] ∧
    (create_bronze_table false sData).2 = true :=
  ⟨((create_bronze_table_idempotent false true sData).2.2 [["r"]] rfl).2,
   (create_bronze_table_idempotent false true sData).1⟩

/-- C10: after one call on a fresh extractor, and provided the requested
valid league keys are pairwise distinct, the extraction summary holds
exactly one entry per league that yielded at least one record (none for
the others), and the records counts of the summary sum to the number of
rows of the combined dataset. -/
theorem extraction_summary_consistent (fetch : String → Option (List Game))
    (leagues : Option (List String)) (now : String)
    (h : (filteredLeagues leagues).Nodup) :
    (((extract_odds_for_leagues fetch leagues now).2).map (fun e => e.records)).sum =
      (extract_odds_for_leagues fetch leagues now).1.length ∧
    (∀ l, (((extract_odds_for_leagues fetch leagues now).2).map
        (fun e => e.league_key)).count l =
      if l ∈ filteredLeagues leagues ∧ leagueRecords fetch l now ≠ [] then 1 else 0) := by
  rw [extract_eq]
  dsimp only
  refine ⟨sum_summary_records fetch now _, ?_⟩
  intro l
  rw [summary_keys]
  by_cases hp : leagueRecords fetch l now = []
  · have hnm : l ∉ (filteredLeagues leagues).filter
        (fun x => !(leagueRecords fetch x now).isEmpty) := by
      simp [List.mem_filter, List.isEmpty_iff, hp]
    rw [List.count_eq_zero_of_not_mem hnm]
    simp [hp]
  · have hpb : (!(leagueRecords fetch l now).isEmpty) = true := by
      simp [List.isEmpty_iff, hp]
    have hcf := @List.count_filter String _ _
      (fun x => !(leagueRecords fetch x now).isEmpty) l (filteredLeagues leagues) hpb
    rw [hcf]
    by_cases hmem : l ∈ filteredLeagues leagues
    · rw [List.count_eq_one_of_mem h hmem]
      simp [hmem, hp]
    · rw [List.count_eq_zero_of_not_mem hmem]
      simp [hmem]

theorem extraction_summary_consistent_witness :
    (((extract_odds_for_leagues fetchB (some ["soccer_epl", "soccer_la_liga"]) "t0").2).map
      (fun e => e.league_key)).count "soccer_epl" =
      if "soccer_epl" ∈ filteredLeagues (some ["soccer_epl", "soccer_la_liga"]) ∧
          leagueRecords fetchB "soccer_epl" "t0" ≠ [] then 1 else 0 :=
  (extraction_summary_consistent fetchB (some ["soccer_epl", "soccer_la_liga"]) "t0"
    (by decide)).2 "soccer_epl"

end OddsProject
